import Mathlib

/-!
Shallow embedding of `rpc/src/calls/block.rs` from sawtooth-seth: the block
RPC endpoints (`eth_blockNumber`, `eth_getBlockByHash`, `eth_getBlockByNumber`,
`eth_getBlockTransactionCountByHash`, `eth_getBlockTransactionCountByNumber`)
and the shared helpers `get_block_obj` and `get_block_transaction_count`.

External collaborators (the `client::ValidatorClient` lookups, the protobuf
header decoder, `client::BlockKey::from_str`, and the `transform` module) are
repository code that lives outside the `rpc/src/calls` sources; they are
modelled as an environment record of uninterpreted functions, and the pure
`transform` encoders are modelled from the spec (NumericHexCodec, section 4.1).
-/

namespace Seth

/-- JSON values (`jsonrpc_core::Value` / `serde_json::Value`), restricted to
the constructors this module produces. Objects are kept as association lists
in the order the code inserts the keys; every key the code inserts is
distinct, so the association list determines the map. -/
inductive Value where
  | null
  | str (s : String)
  | arr (xs : List Value)
  | obj (fields : List (String × Value))

/-- JSON-RPC error results used by this module: `Error::invalid_params(msg)`
and `Error::internal_error()`. -/
inductive RpcError where
  | invalidParams (msg : String)
  | internalError
deriving DecidableEq

/-- `client::Error`: the only variant the module inspects is `NoResource`;
every other variant is handled uniformly, so they collapse to `other`. -/
inductive ClientError where
  | noResource
  | other
deriving DecidableEq

/-- Modelled from the spec: `client::BlockKey` (section 3) is not under the
embedded sources; it is a closed variant of exact hash (header signature),
exact height, and the symbolic latest tag. -/
inductive BlockKey where
  | signature (s : String)
  | number (n : Nat)
  | latest
deriving DecidableEq

/-- A ledger transaction; only its identity is relevant here, since the module
hands full transactions to `transform::make_txn_obj_no_block` unopened. -/
structure Transaction where
  ident : String
deriving DecidableEq

/-- A batch inside a native block: an ordered sequence of transactions
(`batch.transactions` in the sawtooth SDK message). -/
structure Batch where
  transactions : List Transaction

/-- The native ledger block: opaque header bytes, the header signature (the
block's canonical hash in this system), and the ordered batches. -/
structure Block where
  header : List Nat
  header_signature : String
  batches : List Batch

/-- The decoded sawtooth `BlockHeader` fields this module reads. `block_num`
is a u64 in the protobuf message, represented as a Nat (always below 2^64 in
any decodable header). -/
structure BlockHeader where
  block_num : Nat
  previous_block_id : String
  state_root_hash : String

/-- A Seth execution receipt; the module reads only `gas_used`, a u64 in the
source, represented as a Nat (any value a ledger can return is below 2^64). -/
structure SethReceipt where
  gas_used : Nat
deriving DecidableEq

/-- `transactions::TransactionKey`: only the `Signature` variant is used. -/
inductive TransactionKey where
  | signature (s : String)
deriving DecidableEq

/-- The external collaborators consumed by `block.rs`, gathered into one
record of uninterpreted functions: the `ValidatorClient` lookups, the protobuf
header decoder (`protobuf::parse_from_bytes`), `BlockKey::from_str`, and
`transform::make_txn_obj_no_block`. Lookup failures carry no information the
module inspects, so their error types are `ClientError` (where `NoResource`
matters) or `Unit` (where it does not). -/
structure Env where
  get_current_block : Except ClientError Block
  get_block : BlockKey → Except ClientError Block
  parse_from_bytes : List Nat → Option BlockHeader
  get_receipts_from_block : Block → Except Unit (List (String × SethReceipt))
  get_transaction_and_block : TransactionKey → Except Unit (Transaction × Option Block)
  make_txn_obj_no_block : Transaction → Value
  block_key_from_str : String → Option BlockKey

/-- A string of `n` zero digits. -/
def zeros (n : Nat) : String := String.mk (List.replicate n '0')

/-- Modelled from the spec: NumericHexCodec `toHex` (section 4.1), the
`transform::num_to_hex` encoding, which is not under the embedded sources:
`0x` followed by the minimal lowercase hex digits, with zero encoding as
`0x0`. This is also the behavior of the `{:#x}` format specifier used
directly by `block_number`. -/
def toHexStr (n : Nat) : String := "0x" ++ String.mk (Nat.toDigits 16 n)

/-- `transform::num_to_hex` wraps the hex encoding as a JSON string. -/
def num_to_hex (n : Nat) : Value := .str (toHexStr n)

/-- Modelled from the spec: NumericHexCodec `hexPrefix` (section 4.1), the
`transform::hex_prefix` encoding, which is not under the embedded sources:
`0x` followed by the identifier's digits, no padding or truncation. -/
def hex_prefixed (s : String) : Value := .str ("0x" ++ s)

/-- Modelled from the spec: NumericHexCodec `zeroBytes` (section 4.1), the
`transform::zerobytes` encoding, which is not under the embedded sources:
`0x` followed by `2*w` zero digits for `w > 0`, and the bare zero scalar
`0x0` for `w = 0`. -/
def zerobytes (w : Nat) : Value :=
  if w = 0 then .str "0x0" else .str ("0x" ++ zeros (2 * w))

/-- The modulus of Rust `u64` arithmetic: the `gas` accumulator in
`get_block_obj` is a `u64`, so its addition wraps at this modulus. -/
def u64size : Nat := 2 ^ 64

/-- The `for (txn_id, receipt) in receipts` loop of `get_block_obj`: builds
the `transactions` vector and accumulates `gas`, aborting on the first failed
`get_transaction_and_block` lookup when `full` is set. -/
def buildLoop (env : Env) (full : Bool) :
    List (String × SethReceipt) → List Value → Nat → Except Unit (List Value × Nat)
  | [], transactions, gas => .ok (transactions, gas)
  | (txn_id, receipt) :: rest, transactions, gas =>
    if full then
      match env.get_transaction_and_block (.signature txn_id) with
      | .error _ => .error ()
      | .ok (txn, _) =>
        buildLoop env full rest (transactions ++ [env.make_txn_obj_no_block txn])
          ((gas + receipt.gas_used) % u64size)
    else
      buildLoop env full rest (transactions ++ [hex_prefixed txn_id])
        ((gas + receipt.gas_used) % u64size)

/-- `get_block_obj`: resolve the key, decode the header, aggregate receipts,
and assemble the block object. The source inserts the first four fields into
the map before fetching receipts, but a map abandoned by an early error return
is unobservable, so the object is assembled once at the end, in the source's
insertion order. -/
def get_block_obj (env : Env) (block_key : BlockKey) (full : Bool) :
    Except RpcError Value :=
  match env.get_block block_key with
  | .error .noResource => .ok .null
  | .error .other => .error .internalError
  | .ok block =>
    match env.parse_from_bytes block.header with
    | none => .error .internalError
    | some block_header =>
      match env.get_receipts_from_block block with
      | .error _ => .error .internalError
      | .ok receipts =>
        match buildLoop env full receipts [] 0 with
        | .error _ => .error .internalError
        | .ok (transactions, gas) =>
          .ok (.obj
            [("number", num_to_hex block_header.block_num),
             ("hash", hex_prefixed block.header_signature),
             ("parentHash", hex_prefixed block_header.previous_block_id),
             ("stateRoot", hex_prefixed block_header.state_root_hash),
             ("transactions", .arr transactions),
             ("gasUsed", num_to_hex gas),
             ("nonce", zerobytes 8),
             ("sha3Uncles", zerobytes 32),
             ("logsBloom", zerobytes 256),
             ("transactionsRoot", zerobytes 32),
             ("receiptsRoot", zerobytes 32),
             ("miner", zerobytes 20),
             ("difficulty", zerobytes 0),
             ("totalDifficulty", zerobytes 0),
             ("extraData", zerobytes 0),
             ("size", zerobytes 0),
             ("gasLimit", zerobytes 0),
             ("uncles", .arr [])])

/-- `get_block_transaction_count`: resolve the key and fold the number of
transactions over the block's batches. -/
def get_block_transaction_count (env : Env) (block_key : BlockKey) :
    Except RpcError Value :=
  match env.get_block block_key with
  | .error .noResource => .ok .null
  | .error .other => .error .internalError
  | .ok block =>
    .ok (num_to_hex
      (block.batches.foldl (fun acc batch => acc + batch.transactions.length) 0))

/-- Rust `str::get(2..)` as used on the caller-supplied hash string. Strings
are modelled at byte granularity (one `Char` per byte), so the slice succeeds
exactly when the string holds at least two bytes, and returns everything after
the first two. -/
def strGet2 (s : String) : Option String :=
  if 2 ≤ s.length then some (s.drop 2) else none

/-- `eth_blockNumber`. The handler receives the positional JSON-RPC params
like every other handler and ignores them. -/
def block_number (env : Env) (_params : List Value) : Except RpcError Value :=
  match env.get_current_block with
  | .error _ => .error .internalError
  | .ok block =>
    match env.parse_from_bytes block.header with
    | none => .error .internalError
    | some block_header => .ok (.str (toHexStr block_header.block_num))

/-- `eth_getBlockByHash`, after its params have been parsed into the
`(blockHash, full)` pair (a parse failure returns `invalid_params` before the
string is examined and is outside the properties below). -/
def get_block_by_hash (env : Env) (block_hash : String) (full : Bool) :
    Except RpcError Value :=
  match strGet2 block_hash with
  | some bh => get_block_obj env (.signature bh) full
  | none => .error (.invalidParams "Invalid block hash, must have 0x")

/-- `eth_getBlockByNumber`, after its params have been parsed into the
`(blockNum, full)` pair. -/
def get_block_by_number (env : Env) (block_num : String) (full : Bool) :
    Except RpcError Value :=
  match env.block_key_from_str block_num with
  | some k => get_block_obj env k full
  | none => .error (.invalidParams "Invalid block number")

/-- `eth_getBlockTransactionCountByHash`, after its params have been parsed
into the single hash string. -/
def get_block_transaction_count_by_hash (env : Env) (block_hash : String) :
    Except RpcError Value :=
  match strGet2 block_hash with
  | some bh => get_block_transaction_count env (.signature bh)
  | none => .error (.invalidParams "Invalid block hash, must have 0x")

/-- `eth_getBlockTransactionCountByNumber`, after its params have been parsed
into the single number-or-tag string. -/
def get_block_transaction_count_by_number (env : Env) (block_num : String) :
    Except RpcError Value :=
  match env.block_key_from_str block_num with
  | some k => get_block_transaction_count env k
  | none => .error (.invalidParams "Invalid block number")

/-- Total gas of a receipts listing, as an unbounded natural number. -/
def sumGas (rs : List (String × SethReceipt)) : Nat :=
  (rs.map (fun p => p.2.gas_used)).sum

/-- Field access on a rendered JSON object. -/
def getField (v : Value) (key : String) : Option Value :=
  match v with
  | .obj fields => fields.lookup key
  | _ => none

/-- The key list of a rendered JSON object, in insertion order (`none` for
non-objects). -/
def objKeys (v : Value) : Option (List String) :=
  match v with
  | .obj fields => some (fields.map Prod.fst)
  | _ => none

/-- The transaction object the full rendering mode produces for one
transaction identifier, when its lookup succeeds (`Value.null` is a dummy for
the impossible failed case, which aborts the whole render instead). -/
def txnAt (env : Env) (txn_id : String) : Value :=
  match env.get_transaction_and_block (.signature txn_id) with
  | .ok (txn, _) => env.make_txn_obj_no_block txn
  | .error _ => .null

/-- The key list of every successfully rendered block object, in the order
the source inserts them. -/
def blockViewKeys : List String :=
  ["number", "hash", "parentHash", "stateRoot", "transactions", "gasUsed",
   "nonce", "sha3Uncles", "logsBloom", "transactionsRoot", "receiptsRoot",
   "miner", "difficulty", "totalDifficulty", "extraData", "size", "gasLimit",
   "uncles"]

/-! Concrete sample data used to instantiate the theorems. -/

/-- A sample transaction. -/
def txnW : Transaction := { ident := "t1" }

/-- A sample native block with batches `[[t1, t2], [t3]]`. -/
def blockW : Block :=
  { header := [1],
    header_signature := "abcd",
    batches :=
      [{ transactions := [{ ident := "t1" }, { ident := "t2" }] },
       { transactions := [{ ident := "t3" }] }] }

/-- The decoded header of the sample block: height 5. -/
def hdrW : BlockHeader :=
  { block_num := 5, previous_block_id := "pp", state_root_hash := "ss" }

/-- Receipts of the sample block: 21000 gas for `t1`, 50000 gas for `t2`. -/
def receiptsW : List (String × SethReceipt) :=
  [("t1", { gas_used := 21000 }), ("t2", { gas_used := 50000 })]

/-- Receipts whose gas values are each a valid u64 but whose sum is exactly
2^64, overflowing the u64 accumulator. -/
def receiptsOv : List (String × SethReceipt) :=
  [("t1", { gas_used := 2 ^ 63 }), ("t2", { gas_used := 2 ^ 63 })]

/-- A ledger environment on the happy path: every lookup succeeds. -/
def envW : Env :=
  { get_current_block := .ok blockW,
    get_block := fun _ => .ok blockW,
    parse_from_bytes := fun _ => some hdrW,
    get_receipts_from_block := fun _ => .ok receiptsW,
    get_transaction_and_block := fun _ => .ok (txnW, none),
    make_txn_obj_no_block := fun t => .str t.ident,
    block_key_from_str := fun _ => some .latest }

/-- A ledger environment where every block lookup reports `NoResource`. -/
def envNoRes : Env :=
  { envW with get_block := fun _ => .error .noResource }

/-- A ledger environment where every per-transaction follow-up lookup
fails. -/
def envFail : Env :=
  { envW with get_transaction_and_block := fun _ => .error () }

/-- The happy-path environment with the overflowing receipts. -/
def envOv : Env :=
  { envW with get_receipts_from_block := fun _ => .ok receiptsOv }

/-- The object `get_block_obj` renders for the sample block in summary
mode. -/
def blockViewW : Value :=
  .obj
    [("number", .str "0x5"),
     ("hash", .str "0xabcd"),
     ("parentHash", .str "0xpp"),
     ("stateRoot", .str "0xss"),
     ("transactions", .arr [.str "0xt1", .str "0xt2"]),
     ("gasUsed", .str "0x11558"),
     ("nonce", .str ("0x" ++ zeros 16)),
     ("sha3Uncles", .str ("0x" ++ zeros 64)),
     ("logsBloom", .str ("0x" ++ zeros 512)),
     ("transactionsRoot", .str ("0x" ++ zeros 64)),
     ("receiptsRoot", .str ("0x" ++ zeros 64)),
     ("miner", .str ("0x" ++ zeros 40)),
     ("difficulty", .str "0x0"),
     ("totalDifficulty", .str "0x0"),
     ("extraData", .str "0x0"),
     ("size", .str "0x0"),
     ("gasLimit", .str "0x0"),
     ("uncles", .arr [])]

/-- The object `get_block_obj` renders for the sample block in full mode
under `envW`: both follow-up lookups return `txnW`. -/
def fullViewW : Value :=
  .obj
    [("number", .str "0x5"),
     ("hash", .str "0xabcd"),
     ("parentHash", .str "0xpp"),
     ("stateRoot", .str "0xss"),
     ("transactions", .arr [.str "t1", .str "t1"]),
     ("gasUsed", .str "0x11558"),
     ("nonce", .str ("0x" ++ zeros 16)),
     ("sha3Uncles", .str ("0x" ++ zeros 64)),
     ("logsBloom", .str ("0x" ++ zeros 512)),
     ("transactionsRoot", .str ("0x" ++ zeros 64)),
     ("receiptsRoot", .str ("0x" ++ zeros 64)),
     ("miner", .str ("0x" ++ zeros 40)),
     ("difficulty", .str "0x0"),
     ("totalDifficulty", .str "0x0"),
     ("extraData", .str "0x0"),
     ("size", .str "0x0"),
     ("gasLimit", .str "0x0"),
     ("uncles", .arr [])]

/-- The object rendered for the sample block with the overflowing receipts in
summary mode: the u64 gas accumulator wraps to zero. -/
def ovView : Value :=
  .obj
    [("number", .str "0x5"),
     ("hash", .str "0xabcd"),
     ("parentHash", .str "0xpp"),
     ("stateRoot", .str "0xss"),
     ("transactions", .arr [.str "0xt1", .str "0xt2"]),
     ("gasUsed", .str "0x0"),
     ("nonce", .str ("0x" ++ zeros 16)),
     ("sha3Uncles", .str ("0x" ++ zeros 64)),
     ("logsBloom", .str ("0x" ++ zeros 512)),
     ("transactionsRoot", .str ("0x" ++ zeros 64)),
     ("receiptsRoot", .str ("0x" ++ zeros 64)),
     ("miner", .str ("0x" ++ zeros 40)),
     ("difficulty", .str "0x0"),
     ("totalDifficulty", .str "0x0"),
     ("extraData", .str "0x0"),
     ("size", .str "0x0"),
     ("gasLimit", .str "0x0"),
     ("uncles", .arr [])]

/-! Helper lemmas about the receipts loop and the assembly. -/

theorem u64size_pos : 0 < u64size := by
  simp [u64size]

theorem sumGas_nil : sumGas [] = 0 := rfl

theorem sumGas_cons (p : String × SethReceipt) (rest : List (String × SethReceipt)) :
    sumGas (p :: rest) = p.2.gas_used + sumGas rest := by
  simp [sumGas]

theorem buildLoop_gas (env : Env) (full : Bool) :
    ∀ (rs : List (String × SethReceipt)) (acc : List Value) (g t g'),
      g < u64size → buildLoop env full rs acc g = .ok (t, g') →
      g' = (g + sumGas rs) % u64size := by
  intro rs
  induction rs with
  | nil =>
    intro acc g t g' hg h
    simp only [buildLoop, Except.ok.injEq, Prod.mk.injEq] at h
    rw [sumGas_nil, Nat.add_zero, Nat.mod_eq_of_lt hg, ← h.2]
  | cons p rest ih =>
    obtain ⟨txn_id, receipt⟩ := p
    intro acc g t g' hg h
    cases full with
    | false =>
      have h' : buildLoop env false rest (acc ++ [hex_prefixed txn_id])
          ((g + receipt.gas_used) % u64size) = .ok (t, g') := h
      rw [ih _ _ _ _ (Nat.mod_lt _ u64size_pos) h', Nat.mod_add_mod, sumGas_cons]
      show (g + receipt.gas_used + sumGas rest) % u64size
        = (g + (receipt.gas_used + sumGas rest)) % u64size
      congr 1
      omega
    | true =>
      simp only [buildLoop, if_true] at h
      cases hl : env.get_transaction_and_block (.signature txn_id) with
      | error e =>
        rw [hl] at h
        exact Except.noConfusion h
      | ok tb =>
        obtain ⟨txn, ob⟩ := tb
        rw [hl] at h
        have h' : buildLoop env true rest (acc ++ [env.make_txn_obj_no_block txn])
            ((g + receipt.gas_used) % u64size) = .ok (t, g') := h
        rw [ih _ _ _ _ (Nat.mod_lt _ u64size_pos) h', Nat.mod_add_mod, sumGas_cons]
        show (g + receipt.gas_used + sumGas rest) % u64size
          = (g + (receipt.gas_used + sumGas rest)) % u64size
        congr 1
        omega

theorem buildLoop_false_shape (env : Env) :
    ∀ (rs : List (String × SethReceipt)) (acc : List Value) (g t g'),
      buildLoop env false rs acc g = .ok (t, g') →
      t = acc ++ rs.map (fun p => hex_prefixed p.1) := by
  intro rs
  induction rs with
  | nil =>
    intro acc g t g' h
    simp only [buildLoop, Except.ok.injEq, Prod.mk.injEq] at h
    simp [h.1]
  | cons p rest ih =>
    obtain ⟨txn_id, receipt⟩ := p
    intro acc g t g' h
    have h' : buildLoop env false rest (acc ++ [hex_prefixed txn_id])
        ((g + receipt.gas_used) % u64size) = .ok (t, g') := h
    rw [ih _ _ _ _ h']
    simp

theorem buildLoop_false_ok (env : Env) :
    ∀ (rs : List (String × SethReceipt)) (acc : List Value) (g : Nat),
      ∃ t g', buildLoop env false rs acc g = .ok (t, g') := by
  intro rs
  induction rs with
  | nil => intro acc g; exact ⟨acc, g, rfl⟩
  | cons p rest ih =>
    obtain ⟨txn_id, receipt⟩ := p
    intro acc g
    obtain ⟨t, g', h⟩ :=
      ih (acc ++ [hex_prefixed txn_id]) ((g + receipt.gas_used) % u64size)
    exact ⟨t, g', h⟩

theorem buildLoop_true_shape (env : Env) :
    ∀ (rs : List (String × SethReceipt)) (acc : List Value) (g t g'),
      buildLoop env true rs acc g = .ok (t, g') →
      t = acc ++ rs.map (fun p => txnAt env p.1) := by
  intro rs
  induction rs with
  | nil =>
    intro acc g t g' h
    simp only [buildLoop, Except.ok.injEq, Prod.mk.injEq] at h
    simp [h.1]
  | cons p rest ih =>
    obtain ⟨txn_id, receipt⟩ := p
    intro acc g t g' h
    simp only [buildLoop, if_true] at h
    cases hl : env.get_transaction_and_block (.signature txn_id) with
    | error e =>
      rw [hl] at h
      exact Except.noConfusion h
    | ok tb =>
      obtain ⟨txn, ob⟩ := tb
      rw [hl] at h
      have h' : buildLoop env true rest (acc ++ [env.make_txn_obj_no_block txn])
          ((g + receipt.gas_used) % u64size) = .ok (t, g') := h
      have hx : txnAt env txn_id = env.make_txn_obj_no_block txn := by
        simp [txnAt, hl]
      rw [ih _ _ _ _ h']
      simp [hx]

theorem buildLoop_true_err (env : Env) :
    ∀ (rs : List (String × SethReceipt)) (acc : List Value) (g : Nat)
      (p : String × SethReceipt), p ∈ rs →
      env.get_transaction_and_block (.signature p.1) = .error () →
      buildLoop env true rs acc g = .error () := by
  intro rs
  induction rs with
  | nil =>
    intro acc g p hp
    exact absurd hp (List.not_mem_nil p)
  | cons q rest ih =>
    obtain ⟨txn_id, receipt⟩ := q
    intro acc g p hp hf
    simp only [buildLoop, if_true]
    cases hl : env.get_transaction_and_block (.signature txn_id) with
    | error e => rfl
    | ok tb =>
      obtain ⟨txn, ob⟩ := tb
      rcases List.mem_cons.mp hp with heq | hmem
      · rw [heq] at hf
        rw [hf] at hl
        exact Except.noConfusion hl
      · exact ih _ _ p hmem hf

theorem get_block_obj_eq (env : Env) (key : BlockKey) (full : Bool)
    (block : Block) (hdr : BlockHeader) (rs : List (String × SethReceipt))
    (t : List Value) (g : Nat)
    (hb : env.get_block key = .ok block)
    (hh : env.parse_from_bytes block.header = some hdr)
    (hr : env.get_receipts_from_block block = .ok rs)
    (hl : buildLoop env full rs [] 0 = .ok (t, g)) :
    get_block_obj env key full = .ok (.obj
      [("number", num_to_hex hdr.block_num),
       ("hash", hex_prefixed block.header_signature),
       ("parentHash", hex_prefixed hdr.previous_block_id),
       ("stateRoot", hex_prefixed hdr.state_root_hash),
       ("transactions", .arr t),
       ("gasUsed", num_to_hex g),
       ("nonce", zerobytes 8),
       ("sha3Uncles", zerobytes 32),
       ("logsBloom", zerobytes 256),
       ("transactionsRoot", zerobytes 32),
       ("receiptsRoot", zerobytes 32),
       ("miner", zerobytes 20),
       ("difficulty", zerobytes 0),
       ("totalDifficulty", zerobytes 0),
       ("extraData", zerobytes 0),
       ("size", zerobytes 0),
       ("gasLimit", zerobytes 0),
       ("uncles", .arr [])]) := by
  simp [get_block_obj, hb, hh, hr, hl]

theorem get_block_obj_loop_err (env : Env) (key : BlockKey) (full : Bool)
    (block : Block) (hdr : BlockHeader) (rs : List (String × SethReceipt))
    (hb : env.get_block key = .ok block)
    (hh : env.parse_from_bytes block.header = some hdr)
    (hr : env.get_receipts_from_block block = .ok rs)
    (hl : buildLoop env full rs [] 0 = .error ()) :
    get_block_obj env key full = .error .internalError := by
  simp [get_block_obj, hb, hh, hr, hl]

theorem foldl_count (l : List Batch) :
    ∀ n : Nat, l.foldl (fun acc batch => acc + batch.transactions.length) n
      = n + (l.map (fun b => b.transactions.length)).sum := by
  induction l with
  | nil => intro n; simp
  | cons b rest ih =>
    intro n
    rw [List.foldl_cons, ih, List.map_cons, List.sum_cons]
    omega

/-! Claims. -/

/-- C1, counterexample: the claim reads the `gasUsed` field as the exact sum
of the receipts' gas values, but `get_block_obj` accumulates gas in a `u64`.
Two receipts of 2^63 gas each (both valid u64 values) sum to 2^64, the
accumulator wraps to zero, and the rendered field is `0x0`, not the encoding
of the exact sum. -/
theorem gasUsed_overflow_counterexample :
    envOv.get_block (BlockKey.number 5) = .ok blockW ∧
    envOv.get_receipts_from_block blockW = .ok receiptsOv ∧
    sumGas receiptsOv = 2 ^ 64 ∧
    get_block_obj envOv (BlockKey.number 5) false = .ok ovView ∧
    getField ovView "gasUsed" = some (num_to_hex 0) ∧
    getField ovView "gasUsed" ≠ some (num_to_hex (sumGas receiptsOv)) := by
  refine ⟨rfl, rfl, by decide, rfl, rfl, ?_⟩
  intro h
  injection h with h1
  injection h1 with h2
  exact absurd h2 (by decide)

/-- C1, amended: for every block successfully rendered by `get_block_obj`
(any key form, either transaction mode), the `gasUsed` field of the returned
object equals the sum of the `gas_used` values of the block's receipts reduced
modulo 2^64 (the u64 accumulator), encoded via `num_to_hex`; this is the exact
sum whenever that sum fits in 64 bits. -/
theorem gasUsed_eq_sum_mod_u64 (env : Env) (key : BlockKey) (full : Bool)
    (block : Block) (hdr : BlockHeader) (rs : List (String × SethReceipt))
    (v : Value)
    (hb : env.get_block key = .ok block)
    (hh : env.parse_from_bytes block.header = some hdr)
    (hr : env.get_receipts_from_block block = .ok rs)
    (hv : get_block_obj env key full = .ok v) :
    getField v "gasUsed" = some (num_to_hex (sumGas rs % u64size)) := by
  cases hbl : buildLoop env full rs [] 0 with
  | error e =>
    obtain ⟨⟩ := e
    rw [get_block_obj_loop_err env key full block hdr rs hb hh hr hbl] at hv
    exact Except.noConfusion hv
  | ok tg =>
    obtain ⟨t, g⟩ := tg
    rw [get_block_obj_eq env key full block hdr rs t g hb hh hr hbl] at hv
    injection hv with hv'
    subst hv'
    have hg : g = (0 + sumGas rs) % u64size :=
      buildLoop_gas env full rs [] 0 t g u64size_pos hbl
    rw [Nat.zero_add] at hg
    show some (num_to_hex g) = some (num_to_hex (sumGas rs % u64size))
    rw [hg]

/-- Witness for the amended C1: the sample block has receipts of 21000 and
50000 gas, and its rendered `gasUsed` is the encoding of 71000. -/
theorem gasUsed_eq_sum_mod_u64_witness :
    envW.get_block (BlockKey.number 5) = .ok blockW ∧
    envW.parse_from_bytes blockW.header = some hdrW ∧
    envW.get_receipts_from_block blockW = .ok receiptsW ∧
    get_block_obj envW (BlockKey.number 5) false = .ok blockViewW ∧
    getField blockViewW "gasUsed" = some (num_to_hex (sumGas receiptsW % u64size)) :=
  ⟨rfl, rfl, rfl, rfl,
    gasUsed_eq_sum_mod_u64 envW (BlockKey.number 5) false blockW hdrW receiptsW
      blockViewW rfl rfl rfl rfl⟩

/-- C2: for every block rendered with `full = false`, the `transactions`
field of the returned object is the list of hex-prefixed transaction
identifiers in the receipts' order; being a `List.map` of the receipts
listing, it has one entry per receipt and preserves the order. -/
theorem summary_transactions (env : Env) (key : BlockKey)
    (block : Block) (hdr : BlockHeader) (rs : List (String × SethReceipt))
    (v : Value)
    (hb : env.get_block key = .ok block)
    (hh : env.parse_from_bytes block.header = some hdr)
    (hr : env.get_receipts_from_block block = .ok rs)
    (hv : get_block_obj env key false = .ok v) :
    getField v "transactions" = some (.arr (rs.map (fun p => hex_prefixed p.1))) ∧
    (rs.map (fun p => hex_prefixed p.1)).length = rs.length := by
  obtain ⟨t, g, hbl⟩ := buildLoop_false_ok env rs [] 0
  have hshape : t = [] ++ rs.map (fun p => hex_prefixed p.1) :=
    buildLoop_false_shape env rs [] 0 t g hbl
  rw [List.nil_append] at hshape
  rw [get_block_obj_eq env key false block hdr rs t g hb hh hr hbl] at hv
  injection hv with hv'
  subst hv'
  constructor
  · show some (Value.arr t) = some (.arr (rs.map (fun p => hex_prefixed p.1)))
    rw [hshape]
  · simp

/-- Witness for C2 at the sample block: two receipts, and the summary
transaction list is the two hex-prefixed identifiers in order. -/
theorem summary_transactions_witness :
    envW.get_block (BlockKey.number 5) = .ok blockW ∧
    envW.parse_from_bytes blockW.header = some hdrW ∧
    envW.get_receipts_from_block blockW = .ok receiptsW ∧
    get_block_obj envW (BlockKey.number 5) false = .ok blockViewW ∧
    (getField blockViewW "transactions"
        = some (.arr (receiptsW.map (fun p => hex_prefixed p.1))) ∧
      (receiptsW.map (fun p => hex_prefixed p.1)).length = receiptsW.length) :=
  ⟨rfl, rfl, rfl, rfl,
    summary_transactions envW (BlockKey.number 5) blockW hdrW receiptsW blockViewW
      rfl rfl rfl rfl⟩

/-- C3: when the ledger lookup reports `NoResource`, both `get_block_obj`
(either transaction mode) and `get_block_transaction_count` succeed with the
JSON `null` result rather than returning an error. -/
theorem not_found_null (env : Env) (key : BlockKey) (full : Bool)
    (hb : env.get_block key = .error .noResource) :
    get_block_obj env key full = .ok .null ∧
    get_block_transaction_count env key = .ok .null := by
  constructor
  · simp [get_block_obj, hb]
  · simp [get_block_transaction_count, hb]

/-- Witness for C3 in the environment where every block lookup reports
`NoResource`. -/
theorem not_found_null_witness :
    envNoRes.get_block (BlockKey.signature "ff") = .error .noResource ∧
    (get_block_obj envNoRes (BlockKey.signature "ff") true = .ok .null ∧
     get_block_transaction_count envNoRes (BlockKey.signature "ff") = .ok .null) :=
  ⟨rfl, not_found_null envNoRes (BlockKey.signature "ff") true rfl⟩

/-- C4, evaluation at the failing input: the hash entry points do not check
for a `0x` prefix. On the identifier `ab12`, which lacks the prefix, both
entry points strip the first two characters whatever they are and proceed to
the ledger lookup with key `12` (here answered with `NoResource`, so the call
succeeds with `null`); the documented parameter error is not produced. -/
theorem hash_without_0x_not_rejected :
    get_block_by_hash envNoRes "ab12" true
      = get_block_obj envNoRes (BlockKey.signature "12") true ∧
    get_block_by_hash envNoRes "ab12" true = .ok .null ∧
    get_block_transaction_count_by_hash envNoRes "ab12"
      = get_block_transaction_count envNoRes (BlockKey.signature "12") ∧
    get_block_transaction_count_by_hash envNoRes "ab12" = .ok .null ∧
    get_block_by_hash envNoRes "ab12" true
      ≠ .error (.invalidParams "Invalid block hash, must have 0x") := by
  refine ⟨rfl, rfl, rfl, rfl, ?_⟩
  intro h
  have h2 : (Except.ok Value.null : Except RpcError Value)
      = .error (.invalidParams "Invalid block hash, must have 0x") := h
  exact Except.noConfusion h2

/-- C5: in full mode, if the follow-up `get_transaction_and_block` lookup of
any receipt's transaction fails, the whole `get_block_obj` operation returns
the internal error; no object, partial or complete, is returned. -/
theorem full_lookup_failure_internal (env : Env) (key : BlockKey)
    (block : Block) (hdr : BlockHeader) (rs : List (String × SethReceipt))
    (p : String × SethReceipt)
    (hb : env.get_block key = .ok block)
    (hh : env.parse_from_bytes block.header = some hdr)
    (hr : env.get_receipts_from_block block = .ok rs)
    (hp : p ∈ rs)
    (hf : env.get_transaction_and_block (.signature p.1) = .error ()) :
    get_block_obj env key true = .error .internalError :=
  get_block_obj_loop_err env key true block hdr rs hb hh hr
    (buildLoop_true_err env rs [] 0 p hp hf)

/-- Witness for C5 in the environment where every follow-up transaction
lookup fails. -/
theorem full_lookup_failure_internal_witness :
    envFail.get_block (BlockKey.number 5) = .ok blockW ∧
    envFail.parse_from_bytes blockW.header = some hdrW ∧
    envFail.get_receipts_from_block blockW = .ok receiptsW ∧
    ("t1", ({ gas_used := 21000 } : SethReceipt)) ∈ receiptsW ∧
    envFail.get_transaction_and_block (.signature "t1") = .error () ∧
    get_block_obj envFail (BlockKey.number 5) true = .error .internalError :=
  ⟨rfl, rfl, rfl, by decide, rfl,
    full_lookup_failure_internal envFail (BlockKey.number 5) blockW hdrW receiptsW
      ("t1", { gas_used := 21000 }) rfl rfl rfl (by decide) rfl⟩

/-- C6: for every existing block, `get_block_transaction_count` returns the
sum over all batches of each batch's transaction count, hex-encoded; and its
result depends only on the `get_block` lookup, so no receipt or
per-transaction lookup is consulted (any environment with the same
`get_block` gives the same answer). -/
theorem count_transactions_batches (env env' : Env) (key : BlockKey)
    (block : Block)
    (hb : env.get_block key = .ok block)
    (hsame : env'.get_block = env.get_block) :
    get_block_transaction_count env key
      = .ok (num_to_hex ((block.batches.map (fun b => b.transactions.length)).sum)) ∧
    get_block_transaction_count env' key = get_block_transaction_count env key := by
  constructor
  · simp [get_block_transaction_count, hb, foldl_count]
  · simp [get_block_transaction_count, hsame]

/-- Witness for C6: the sample block has batches `[[t1, t2], [t3]]`, and the
count query answers `0x3` under any environment sharing the block lookup. -/
theorem count_transactions_batches_witness :
    envW.get_block BlockKey.latest = .ok blockW ∧
    envFail.get_block = envW.get_block ∧
    (get_block_transaction_count envW BlockKey.latest
        = .ok (num_to_hex ((blockW.batches.map (fun b => b.transactions.length)).sum)) ∧
      get_block_transaction_count envFail BlockKey.latest
        = get_block_transaction_count envW BlockKey.latest) ∧
    get_block_transaction_count envW BlockKey.latest = .ok (.str "0x3") :=
  ⟨rfl, rfl,
    count_transactions_batches envW envFail BlockKey.latest blockW rfl rfl, rfl⟩

/-- C7: every successfully rendered block object carries exactly the
protocol-mandated key set, in the source's insertion order, and the
placeholder fields hold their fixed zero encodings: `nonce` 8 zero bytes,
`sha3Uncles` 32, `logsBloom` 256, `transactionsRoot` 32, `receiptsRoot` 32,
`miner` 20 (as 16, 64, 512, 64, 64 and 40 zero digits respectively),
`difficulty`, `totalDifficulty`, `extraData`, `size` and `gasLimit` the zero
scalar `0x0`, and `uncles` the empty list. -/
theorem blockView_fields (env : Env) (key : BlockKey) (full : Bool) (v : Value)
    (hv : get_block_obj env key full = .ok v) (hnn : v ≠ .null) :
    objKeys v = some blockViewKeys ∧
    getField v "nonce" = some (.str ("0x" ++ zeros 16)) ∧
    getField v "sha3Uncles" = some (.str ("0x" ++ zeros 64)) ∧
    getField v "logsBloom" = some (.str ("0x" ++ zeros 512)) ∧
    getField v "transactionsRoot" = some (.str ("0x" ++ zeros 64)) ∧
    getField v "receiptsRoot" = some (.str ("0x" ++ zeros 64)) ∧
    getField v "miner" = some (.str ("0x" ++ zeros 40)) ∧
    getField v "difficulty" = some (.str "0x0") ∧
    getField v "totalDifficulty" = some (.str "0x0") ∧
    getField v "extraData" = some (.str "0x0") ∧
    getField v "size" = some (.str "0x0") ∧
    getField v "gasLimit" = some (.str "0x0") ∧
    getField v "uncles" = some (.arr []) := by
  cases hgb : env.get_block key with
  | error e =>
    cases e with
    | noResource =>
      simp only [get_block_obj, hgb] at hv
      injection hv with hv'
      exact absurd hv'.symm hnn
    | other =>
      simp only [get_block_obj, hgb] at hv
      exact Except.noConfusion hv
  | ok block =>
    cases hph : env.parse_from_bytes block.header with
    | none =>
      simp only [get_block_obj, hgb, hph] at hv
      exact Except.noConfusion hv
    | some hdr =>
      cases hrc : env.get_receipts_from_block block with
      | error e =>
        simp only [get_block_obj, hgb, hph, hrc] at hv
        exact Except.noConfusion hv
      | ok rs =>
        cases hbl : buildLoop env full rs [] 0 with
        | error e =>
          obtain ⟨⟩ := e
          rw [get_block_obj_loop_err env key full block hdr rs hgb hph hrc hbl] at hv
          exact Except.noConfusion hv
        | ok tg =>
          obtain ⟨t, g⟩ := tg
          rw [get_block_obj_eq env key full block hdr rs t g hgb hph hrc hbl] at hv
          injection hv with hv'
          subst hv'
          exact ⟨rfl, rfl, rfl, rfl, rfl, rfl, rfl, rfl, rfl, rfl, rfl, rfl, rfl⟩

/-- Witness for C7 at the sample rendered block object. -/
theorem blockView_fields_witness :
    get_block_obj envW (BlockKey.number 5) false = .ok blockViewW ∧
    blockViewW ≠ .null ∧
    (objKeys blockViewW = some blockViewKeys ∧
      getField blockViewW "nonce" = some (.str ("0x" ++ zeros 16)) ∧
      getField blockViewW "sha3Uncles" = some (.str ("0x" ++ zeros 64)) ∧
      getField blockViewW "logsBloom" = some (.str ("0x" ++ zeros 512)) ∧
      getField blockViewW "transactionsRoot" = some (.str ("0x" ++ zeros 64)) ∧
      getField blockViewW "receiptsRoot" = some (.str ("0x" ++ zeros 64)) ∧
      getField blockViewW "miner" = some (.str ("0x" ++ zeros 40)) ∧
      getField blockViewW "difficulty" = some (.str "0x0") ∧
      getField blockViewW "totalDifficulty" = some (.str "0x0") ∧
      getField blockViewW "extraData" = some (.str "0x0") ∧
      getField blockViewW "size" = some (.str "0x0") ∧
      getField blockViewW "gasLimit" = some (.str "0x0") ∧
      getField blockViewW "uncles" = some (.arr [])) :=
  ⟨rfl, fun h => Value.noConfusion h,
    blockView_fields envW (BlockKey.number 5) false blockViewW rfl
      (fun h => Value.noConfusion h)⟩

/-- C8: when full rendering succeeds, its `transactions` list is the map of
the per-identifier transaction objects over the receipts listing, while
summary rendering of the same block maps the hex-prefixed identifiers over
the same listing: the two lists have equal length and the i-th full object
corresponds to the i-th identifier. -/
theorem full_matches_summary_order (env : Env) (key : BlockKey)
    (block : Block) (hdr : BlockHeader) (rs : List (String × SethReceipt))
    (vf vs : Value)
    (hb : env.get_block key = .ok block)
    (hh : env.parse_from_bytes block.header = some hdr)
    (hr : env.get_receipts_from_block block = .ok rs)
    (hvf : get_block_obj env key true = .ok vf)
    (hvs : get_block_obj env key false = .ok vs) :
    getField vf "transactions" = some (.arr (rs.map (fun p => txnAt env p.1))) ∧
    getField vs "transactions" = some (.arr (rs.map (fun p => hex_prefixed p.1))) ∧
    (rs.map (fun p => txnAt env p.1)).length
      = (rs.map (fun p => hex_prefixed p.1)).length := by
  refine ⟨?_, ?_, by simp⟩
  · cases hbl : buildLoop env true rs [] 0 with
    | error e =>
      obtain ⟨⟩ := e
      rw [get_block_obj_loop_err env key true block hdr rs hb hh hr hbl] at hvf
      exact Except.noConfusion hvf
    | ok tg =>
      obtain ⟨t, g⟩ := tg
      rw [get_block_obj_eq env key true block hdr rs t g hb hh hr hbl] at hvf
      injection hvf with hv'
      subst hv'
      have hshape := buildLoop_true_shape env rs [] 0 t g hbl
      rw [List.nil_append] at hshape
      show some (Value.arr t) = some (.arr (rs.map (fun p => txnAt env p.1)))
      rw [hshape]
  · obtain ⟨t, g, hbl⟩ := buildLoop_false_ok env rs [] 0
    have hshape : t = [] ++ rs.map (fun p => hex_prefixed p.1) :=
      buildLoop_false_shape env rs [] 0 t g hbl
    rw [List.nil_append] at hshape
    rw [get_block_obj_eq env key false block hdr rs t g hb hh hr hbl] at hvs
    injection hvs with hv'
    subst hv'
    show some (Value.arr t) = some (.arr (rs.map (fun p => hex_prefixed p.1)))
    rw [hshape]

/-- Witness for C8 at the sample block, whose full rendering succeeds. -/
theorem full_matches_summary_order_witness :
    get_block_obj envW (BlockKey.number 5) true = .ok fullViewW ∧
    get_block_obj envW (BlockKey.number 5) false = .ok blockViewW ∧
    (getField fullViewW "transactions"
        = some (.arr (receiptsW.map (fun p => txnAt envW p.1))) ∧
      getField blockViewW "transactions"
        = some (.arr (receiptsW.map (fun p => hex_prefixed p.1))) ∧
      (receiptsW.map (fun p => txnAt envW p.1)).length
        = (receiptsW.map (fun p => hex_prefixed p.1)).length) :=
  ⟨rfl, rfl,
    full_matches_summary_order envW (BlockKey.number 5) blockW hdrW receiptsW
      fullViewW blockViewW rfl rfl rfl rfl rfl⟩

/-- C9: `block_number` ignores its params, and: a chain-head lookup failure
gives the internal error, a header decode failure gives the internal error,
and otherwise the result is the head block's height hex-encoded. -/
theorem block_number_spec (env : Env) (ps qs : List Value) :
    block_number env ps = block_number env qs ∧
    (∀ e, env.get_current_block = .error e →
      block_number env ps = .error .internalError) ∧
    (∀ block, env.get_current_block = .ok block →
      env.parse_from_bytes block.header = none →
      block_number env ps = .error .internalError) ∧
    (∀ block hdr, env.get_current_block = .ok block →
      env.parse_from_bytes block.header = some hdr →
      block_number env ps = .ok (.str (toHexStr hdr.block_num))) := by
  refine ⟨rfl, ?_, ?_, ?_⟩
  · intro e he
    simp [block_number, he]
  · intro block hbk hph
    simp [block_number, hbk, hph]
  · intro block hdr hbk hph
    simp [block_number, hbk, hph]

/-- Witness for C9: the sample chain head is at height 5, and the current
height query answers `0x5`. -/
theorem block_number_spec_witness :
    envW.get_current_block = .ok blockW ∧
    envW.parse_from_bytes blockW.header = some hdrW ∧
    block_number envW [] = .ok (.str (toHexStr hdrW.block_num)) ∧
    toHexStr hdrW.block_num = "0x5" :=
  ⟨rfl, rfl, (block_number_spec envW [] []).2.2.2 blockW hdrW rfl rfl, rfl⟩

/-- C10: the hash entry points strip the first two characters of the
identifier without inspecting them: every identifier of length at least two
(the model is byte-granular, so every index is a character boundary) proceeds
to the ledger lookup with its first two characters removed, whatever they
are, and only identifiers shorter than two characters are rejected with the
parameter error. -/
theorem hash_entry_strips_two (env : Env) (s : String) (full : Bool) :
    (2 ≤ s.length →
      get_block_by_hash env s full
        = get_block_obj env (.signature (s.drop 2)) full ∧
      get_block_transaction_count_by_hash env s
        = get_block_transaction_count env (.signature (s.drop 2))) ∧
    (s.length < 2 →
      get_block_by_hash env s full
        = .error (.invalidParams "Invalid block hash, must have 0x") ∧
      get_block_transaction_count_by_hash env s
        = .error (.invalidParams "Invalid block hash, must have 0x")) := by
  constructor
  · intro h
    constructor <;>
      simp [get_block_by_hash, get_block_transaction_count_by_hash, strGet2, h]
  · intro h
    have h2 : ¬ 2 ≤ s.length := by omega
    constructor <;>
      simp [get_block_by_hash, get_block_transaction_count_by_hash, strGet2, h2]

/-- Witness for C10: `zz34` is not 0x-prefixed yet proceeds to the lookup of
key `34`, while the one-character identifier `a` is rejected. -/
theorem hash_entry_strips_two_witness :
    (2 ≤ "zz34".length ∧
      get_block_by_hash envNoRes "zz34" false
        = get_block_obj envNoRes (.signature ("zz34".drop 2)) false ∧
      get_block_transaction_count_by_hash envNoRes "zz34"
        = get_block_transaction_count envNoRes (.signature ("zz34".drop 2))) ∧
    ("a".length < 2 ∧
      get_block_by_hash envNoRes "a" false
        = .error (.invalidParams "Invalid block hash, must have 0x") ∧
      get_block_transaction_count_by_hash envNoRes "a"
        = .error (.invalidParams "Invalid block hash, must have 0x")) :=
  ⟨⟨by decide, (hash_entry_strips_two envNoRes "zz34" false).1 (by decide)⟩,
   ⟨by decide, (hash_entry_strips_two envNoRes "a" false).2 (by decide)⟩⟩

end Seth
